import Mathlib

/-
  Verification development for src/mock-worker/worker.py, the Camunda
  external-task mock worker.

  The Python module is embedded shallowly:
  * JSON/Python values appearing in task payloads become the inductive
    type PyVal; Python dict.get with a default becomes pyDictGet /
    pyValGet (the latter raises AttributeError when the receiver is not
    a dict, exactly as Python does when calling .get on a non-dict).
  * Python exceptions become the Except monad over PyErr.
  * The module-level configuration globals (POLL_INTERVAL, RETRY_BACKOFF,
    MAX_RETRIES, MOCK_IS_READABLE, MOCK_IS_DUPLICATE,
    MOCK_AUTO_COG_RESPONSE, MOCK_COG_DELAY) become the Config structure;
    defaultConfig holds the documented defaults.
  * Each handler _handle_xxx of the source becomes handle_xxx (the
    leading underscore of the Python names is dropped).
  * The network is an oracle: a probe attempt's outcome is a ProbeOutcome,
    a fetchAndLock call's outcome is a FetchOutcome, and the success of
    complete / message POSTs is given by Boolean oracles keyed by task id
    or process instance id.  The observable behaviour of one poll
    iteration is a list of Event values (completion calls with their
    variables, sleeps, message calls, skipped tasks).

  Library facts used in the embedding (the requests package):
  * requests.ConnectionError and requests.Timeout both derive from
    requests.RequestException; ConnectTimeout derives from BOTH
    ConnectionError and Timeout, while ReadTimeout derives from Timeout
    only.  Hence the probe's `except requests.ConnectionError` clause in
    _wait_for_camunda catches connection failures and connect timeouts
    but NOT read timeouts, which propagate out of the loop; the other
    operations catch requests.RequestException, which covers every such
    error.
  * Response.raise_for_status raises HTTPError exactly when
    400 <= status_code < 600; informational and redirect statuses that
    requests does not follow are returned to the caller unchanged.
  * Response.json raises a JSONDecodeError that derives from
    RequestException when the body is not valid JSON.
-/

namespace Worker

/-- A Python/JSON value as it can appear in a fetched task payload. -/
inductive PyVal where
  | pyBool (b : Bool)
  | pyStr (s : String)
  | pyInt (n : Int)
  | pyDict (entries : List (String × PyVal))

/-- The Python exceptions the embedding distinguishes. -/
inductive PyErr where
  | attributeError
  | readTimeout
deriving DecidableEq

/-- A typed engine variable as built by every handler of the source:
the dict constant of shape `{"value": v, "type": t}`. -/
structure TypedVal where
  value : PyVal
  type : String

/-- The variables mapping a handler returns (Python dict, insertion order
preserved). -/
abbrev Variables := List (String × TypedVal)

/-- An external task as consumed by the worker: the fields read by
main / _complete_task from a fetchAndLock response object. -/
structure Task where
  id : String
  topicName : String
  processInstanceId : String
  taskVariables : List (String × PyVal)

/-- Python `d.get(key, default)` on a dict known to be a dict. -/
def pyDictGet (entries : List (String × PyVal)) (key : String) (default : PyVal) : PyVal :=
  match entries.lookup key with
  | some v => v
  | none => default

/-- Python `x.get(key, default)` on an arbitrary value: AttributeError
unless x is a dict. -/
def pyValGet (x : PyVal) (key : String) (default : PyVal) : Except PyErr PyVal :=
  match x with
  | .pyDict entries => .ok (pyDictGet entries key default)
  | _ => .error PyErr.attributeError

/-- The module-level configuration globals of worker.py. -/
structure Config where
  POLL_INTERVAL : Nat
  MAX_RETRIES : Nat
  RETRY_BACKOFF : Nat
  MOCK_IS_READABLE : Bool
  MOCK_IS_DUPLICATE : Bool
  MOCK_AUTO_COG_RESPONSE : Bool
  MOCK_COG_DELAY : Nat

/-- The documented default configuration of worker.py. -/
def defaultConfig : Config :=
  { POLL_INTERVAL := 2
    MAX_RETRIES := 5
    RETRY_BACKOFF := 5
    MOCK_IS_READABLE := true
    MOCK_IS_DUPLICATE := false
    MOCK_AUTO_COG_RESPONSE := true
    MOCK_COG_DELAY := 3 }

/-- The result type of a handler: its returned variables, or a raised
Python exception. -/
abbrev HandlerResult := Except PyErr Variables

/-- _handle_send_notification: reads the notificationType variable for
logging (this read can raise AttributeError on a malformed payload),
then returns a constant mapping. -/
def handle_send_notification (task : Task) : HandlerResult :=
  match pyValGet (pyDictGet task.taskVariables ("notificationType") (PyVal.pyDict [])) ("value") (PyVal.pyStr ("UNKNOWN")) with
  | .error e => .error e
  | .ok _ => .ok [(("notificationSent"), ⟨PyVal.pyBool true, ("Boolean")⟩)]

/-- _handle_resume_loan_processing. -/
def handle_resume_loan_processing (_task : Task) : HandlerResult :=
  .ok [(("resumed"), ⟨PyVal.pyBool true, ("Boolean")⟩)]

/-- _handle_route_to_next_stage. -/
def handle_route_to_next_stage (_task : Task) : HandlerResult :=
  .ok [(("routed"), ⟨PyVal.pyBool true, ("Boolean")⟩)]

/-- _handle_archive_case. -/
def handle_archive_case (_task : Task) : HandlerResult :=
  .ok [(("archived"), ⟨PyVal.pyBool true, ("Boolean")⟩)]

/-- _handle_assess_readability: output controlled by MOCK_IS_READABLE. -/
def handle_assess_readability (cfg : Config) (_task : Task) : HandlerResult :=
  .ok [(("isReadable"), ⟨PyVal.pyBool cfg.MOCK_IS_READABLE, ("Boolean")⟩)]

/-- _handle_check_duplicate: output controlled by MOCK_IS_DUPLICATE;
the matchedApplicationId entry is added only when the flag is set. -/
def handle_check_duplicate (cfg : Config) (_task : Task) : HandlerResult :=
  let result : Variables := [(("isDuplicate"), ⟨PyVal.pyBool cfg.MOCK_IS_DUPLICATE, ("Boolean")⟩)]
  if cfg.MOCK_IS_DUPLICATE then
    .ok (result ++ [(("matchedApplicationId"), ⟨PyVal.pyStr ("MOCK-DUP-12345"), ("String")⟩)])
  else
    .ok result

/-- _handle_send_cog_email. -/
def handle_send_cog_email (_task : Task) : HandlerResult :=
  .ok [(("cogEmailSent"), ⟨PyVal.pyBool true, ("Boolean")⟩)]

/-- _handle_extract_borrower_data. -/
def handle_extract_borrower_data (_task : Task) : HandlerResult :=
  .ok [(("borrowerFirstName"), ⟨PyVal.pyStr ("John"), ("String")⟩),
       (("borrowerLastName"), ⟨PyVal.pyStr ("Doe"), ("String")⟩),
       (("borrowerSSN"), ⟨PyVal.pyStr ("***-**-1234"), ("String")⟩),
       (("loanAmount"), ⟨PyVal.pyInt 25000, ("Long")⟩),
       (("collateralVIN"), ⟨PyVal.pyStr ("1HGCM82633A004352"), ("String")⟩),
       (("refereeId"), ⟨PyVal.pyStr ("REF-MOCK-001"), ("String")⟩),
       (("sourceChannel"), ⟨PyVal.pyStr ("email"), ("String")⟩),
       (("dataExtracted"), ⟨PyVal.pyBool true, ("Boolean")⟩)]

/-- _handle_notify_duplicate: reads the matchedApplicationId variable for
logging (this read can raise AttributeError on a malformed payload),
then returns a constant mapping. -/
def handle_notify_duplicate (task : Task) : HandlerResult :=
  match pyValGet (pyDictGet task.taskVariables ("matchedApplicationId") (PyVal.pyDict [])) ("value") (PyVal.pyStr ("UNKNOWN")) with
  | .error e => .error e
  | .ok _ => .ok [(("duplicateNotified"), ⟨PyVal.pyBool true, ("Boolean")⟩)]

/-- TOPIC_HANDLERS: the registry dict of worker.py, in source order.
The handlers that read a mock flag take the configuration. -/
def TOPIC_HANDLERS (cfg : Config) : List (String × (Task → HandlerResult)) :=
  [(("sendNotification"), handle_send_notification),
   (("resumeLoanProcessing"), handle_resume_loan_processing),
   (("routeToNextStage"), handle_route_to_next_stage),
   (("archiveCase"), handle_archive_case),
   (("assessReadability"), handle_assess_readability cfg),
   (("checkDuplicateApplication"), handle_check_duplicate cfg),
   (("sendCogEmail"), handle_send_cog_email),
   (("extractBorrowerData"), handle_extract_borrower_data),
   (("notifyDuplicate"), handle_notify_duplicate)]

/-- TOPIC_HANDLERS.get(topic): the dispatch lookup of main. -/
def topicHandler (cfg : Config) (topic : String) : Option (Task → HandlerResult) :=
  (TOPIC_HANDLERS cfg).lookup topic

/-- Whether a task's topic is in the registry. -/
def hasKnownTopic (cfg : Config) (task : Task) : Bool :=
  (topicHandler cfg task.topicName).isSome

/-- The outcome of one `requests.get(f"{url}/engine", timeout=5)` call in
_wait_for_camunda: an HTTP response with some status, a connection failure
(requests.ConnectionError, including connect timeouts), or a read timeout
(requests.ReadTimeout, which is NOT a requests.ConnectionError). -/
inductive ProbeOutcome where
  | response (status : Nat)
  | connectionError
  | readTimeout
deriving DecidableEq

/-- One pass through the try/except block of _wait_for_camunda:
`.ok true` means the function returns True (status 200), `.ok false`
means fall through to the backoff sleep, `.error` means an exception the
except clause does not catch propagates. -/
def probeAttempt : ProbeOutcome → Except PyErr Bool
  | .response status => .ok (status == 200)
  | .connectionError => .ok false
  | .readTimeout => .error PyErr.readTimeout

/-- The backoff computation of _wait_for_camunda:
`min(RETRY_BACKOFF * attempt, 30)` (the cap 30 is hardcoded). -/
def backoff (base : Nat) (attempt : Nat) : Nat :=
  min (base * attempt) 30

/-- _wait_for_camunda, run against a finite schedule of loop iterations:
the i-th schedule entry gives the value of the _running flag read at the
top of the i-th iteration and the outcome of that iteration's probe.
Returns the function's return value (`some true` for reachable,
`some false` for the _running flag turning false, `none` when the
schedule ends with the loop still running) together with the list of
backoff sleeps performed, or the uncaught exception.  The attempt counter
enters at 0 and is incremented at the top of each iteration, as in the
source. -/
def wait_for_camunda (cfg : Config) (attempt : Nat) :
    List (Bool × ProbeOutcome) → Except PyErr (Option Bool × List Nat)
  | [] => .ok (none, [])
  | (running, o) :: rest =>
    if running then
      match probeAttempt o with
      | .error e => .error e
      | .ok true => .ok (some true, [])
      | .ok false =>
        match wait_for_camunda cfg (attempt + 1) rest with
        | .error e => .error e
        | .ok (result, sleeps) =>
          .ok (result, backoff cfg.RETRY_BACKOFF (attempt + 1) :: sleeps)
    else .ok (some false, [])

/-- Modelled from the spec: the startup probe "terminates with success
exactly when some probe attempt returns HTTP 200, and terminates with
failure exactly when the Running Flag becomes false"; `none` when the
schedule ends before either happens.  Reference definition for comparing
wait_for_camunda against the claimed behaviour. -/
def specProbeResult : List (Bool × ProbeOutcome) → Option Bool
  | [] => none
  | (running, o) :: rest =>
    if running then
      if o = ProbeOutcome.response 200 then some true else specProbeResult rest
    else some false

/-- Lines 277–279 of worker.py: `if not _wait_for_camunda(): sys.exit(1)`.
Given the probe's return value, yields `some code` when the process exits
at startup with that code and `none` when it proceeds to the poll loop. -/
def startupExitCode (probeReturn : Bool) : Option Nat :=
  if probeReturn then none else some 1

/-- The outcome of the POST in _fetch_and_lock: a transport-level failure
(any requests.RequestException raised by requests.post itself), or an
HTTP response carrying a status code and, when the body parses as a JSON
task array, that array (`none` body = JSON parse failure). -/
inductive FetchOutcome where
  | transportError
  | response (status : Nat) (body : Option (List Task))

/-- _fetch_and_lock: returns resp.json() on success; every
requests.RequestException — transport errors, the HTTPError raised by
raise_for_status (exactly when 400 ≤ status < 600), and the
JSONDecodeError from resp.json() — is caught, logged and turned into
an empty task list. -/
def fetch_and_lock (outcome : FetchOutcome) : List Task :=
  match outcome with
  | .transportError => []
  | .response status body =>
    if 400 ≤ status ∧ status < 600 then []
    else
      match body with
      | some tasks => tasks
      | none => []

/-- An observable step of a poll iteration: a completion POST (with the
variables sent and whether the engine call succeeded), a time.sleep, a
message POST (with message name, process instance id and whether the call
succeeded), or the warning-and-skip of an unknown topic. -/
inductive Event where
  | completeCall (taskId : String) (vars : Variables) (ok : Bool)
  | sleepFor (seconds : Nat)
  | messageCall (messageName : String) (processInstanceId : String) (ok : Bool)
  | skipUnknownTopic (topic : String)

/-- _complete_task: POSTs the completion; a requests.RequestException is
caught and logged, so the call never raises — the event records whether
the engine call succeeded, as given by the completion oracle. -/
def complete_task (completeOk : String → Bool) (task : Task) (vars : Variables) : List Event :=
  [Event.completeCall task.id vars (completeOk task.id)]

/-- _send_cog_form_message: sleeps MOCK_COG_DELAY, then POSTs the
CogFormSubmitted message for the given process instance; a
requests.RequestException is caught and logged, so the call never
raises — the event records whether the engine call succeeded. -/
def send_cog_form_message (cfg : Config) (messageOk : String → Bool)
    (processInstanceId : String) : List Event :=
  [Event.sleepFor cfg.MOCK_COG_DELAY,
   Event.messageCall ("CogFormSubmitted") processInstanceId (messageOk processInstanceId)]

/-- The body of the `for task in tasks` loop of main (lines 286–305):
look the topic up in TOPIC_HANDLERS; on a hit run the handler — an
exception it raises is NOT caught here and propagates — then complete
the task and, when the topic is sendCogEmail and MOCK_AUTO_COG_RESPONSE
is set, run the delayed follow-up message; on a miss log a warning and
skip. -/
def dispatchTask (cfg : Config) (completeOk messageOk : String → Bool)
    (task : Task) : Except PyErr (List Event) :=
  match topicHandler cfg task.topicName with
  | some handler =>
    match handler task with
    | .error e => .error e
    | .ok vars =>
      let completed := complete_task completeOk task vars
      if task.topicName == "sendCogEmail" && cfg.MOCK_AUTO_COG_RESPONSE then
        .ok (completed ++ send_cog_form_message cfg messageOk task.processInstanceId)
      else
        .ok completed
  | none => .ok [Event.skipUnknownTopic task.topicName]

/-- The whole `for task in tasks` loop: tasks are dispatched in order;
the events of each dispatch accumulate; an exception raised by a handler
aborts the loop — the events already produced stand (they were real
engine calls) and the exception is reported alongside them. -/
def processBatch (cfg : Config) (completeOk messageOk : String → Bool) :
    List Task → List Event × Option PyErr
  | [] => ([], none)
  | task :: rest =>
    match dispatchTask cfg completeOk messageOk task with
    | .error e => ([], some e)
    | .ok evs =>
      match processBatch cfg completeOk messageOk rest with
      | (restEvs, err) => (evs ++ restEvs, err)

/-- One iteration of the `while _running` poll loop of main: fetch, run
the batch, then the poll-interval sleep.  An exception escaping the batch
loop escapes main (nothing in main catches it), so the iteration yields
an error in that case. -/
def pollIteration (cfg : Config) (fetch : FetchOutcome)
    (completeOk messageOk : String → Bool) : Except PyErr (List Event) :=
  let tasks := fetch_and_lock fetch
  match processBatch cfg completeOk messageOk tasks with
  | (_, some e) => .error e
  | (evs, none) => .ok (evs ++ [Event.sleepFor cfg.POLL_INTERVAL])

/-- The task ids for which a completion POST was attempted, in order. -/
def completedTaskIds (events : List Event) : List String :=
  events.filterMap fun e =>
    match e with
    | Event.completeCall taskId _ _ => some taskId
    | _ => none

/-- A task on the notifyDuplicate topic whose matchedApplicationId
variable is a bare number instead of a `{value, type}` object; the
handler's `.get("value", "UNKNOWN")` on it raises AttributeError. -/
def taskBadNotify : Task :=
  ⟨("t-bad-1"), ("notifyDuplicate"), ("p-bad-1"), [(("matchedApplicationId"), PyVal.pyInt 7)]⟩

/-- A well-formed task on the archiveCase topic. -/
def taskArchive : Task :=
  ⟨("t-good-1"), ("archiveCase"), ("p-good-1"), []⟩

/-- A task on the sendNotification topic whose notificationType variable
is a bare string instead of a `{value, type}` object; the handler's
`.get("value", "UNKNOWN")` on it raises AttributeError. -/
def taskBadNotification : Task :=
  ⟨("t-bad-2"), ("sendNotification"), ("p-bad-2"), [(("notificationType"), PyVal.pyStr ("oops"))]⟩

/-- A well-formed task on the sendCogEmail topic. -/
def taskCog : Task :=
  ⟨("t-cog"), ("sendCogEmail"), ("p-cog"), []⟩

/-- A task on a topic absent from TOPIC_HANDLERS. -/
def taskUnknown : Task :=
  ⟨("t-unk"), ("noSuchTopic"), ("p-unk"), []⟩

/-- The configuration with the duplicate flag switched on. -/
def dupConfig : Config :=
  { defaultConfig with MOCK_IS_DUPLICATE := true }

/-- wait_for_camunda never reads MAX_RETRIES: its whole behaviour (return
value and sleeps) is unchanged under any MAX_RETRIES value. -/
theorem wait_ignores_max_retries (cfg : Config) (n : Nat) :
    ∀ (inputs : List (Bool × ProbeOutcome)) (attempt : Nat),
      wait_for_camunda { cfg with MAX_RETRIES := n } attempt inputs =
        wait_for_camunda cfg attempt inputs := by
  intro inputs
  induction inputs with
  | nil => intro attempt; rfl
  | cons p rest ih =>
    intro attempt
    obtain ⟨running, o⟩ := p
    simp only [wait_for_camunda, ih]

/-- wait_for_camunda refines specProbeResult on every schedule that holds
no read-timeout outcome: it returns exactly the success/failure value the
spec describes, together with some list of backoff sleeps. -/
theorem wait_refines_spec (cfg : Config) :
    ∀ (inputs : List (Bool × ProbeOutcome)) (attempt : Nat),
      (∀ p ∈ inputs, p.2 ≠ ProbeOutcome.readTimeout) →
      ∃ sleeps, wait_for_camunda cfg attempt inputs = .ok (specProbeResult inputs, sleeps) := by
  intro inputs
  induction inputs with
  | nil => exact fun attempt _ => ⟨[], rfl⟩
  | cons p rest ih =>
    intro attempt hno
    obtain ⟨running, o⟩ := p
    have hrest : ∀ q ∈ rest, q.2 ≠ ProbeOutcome.readTimeout :=
      fun q hq => hno q (List.mem_cons_of_mem _ hq)
    cases running with
    | false => exact ⟨[], by simp [wait_for_camunda, specProbeResult]⟩
    | true =>
      cases o with
      | readTimeout =>
        exact absurd rfl (hno (true, ProbeOutcome.readTimeout) (List.mem_cons_self _ _))
      | connectionError =>
        obtain ⟨sleeps, hrec⟩ := ih (attempt + 1) hrest
        exact ⟨backoff cfg.RETRY_BACKOFF (attempt + 1) :: sleeps,
          by simp [wait_for_camunda, specProbeResult, probeAttempt, hrec]⟩
      | response s =>
        by_cases hs : s = 200
        · subst hs
          exact ⟨[], by simp [wait_for_camunda, specProbeResult, probeAttempt]⟩
        · obtain ⟨sleeps, hrec⟩ := ih (attempt + 1) hrest
          refine ⟨backoff cfg.RETRY_BACKOFF (attempt + 1) :: sleeps, ?_⟩
          have hb : (s == 200) = false := by simp [hs]
          simp [wait_for_camunda, specProbeResult, probeAttempt, hrec, hs, hb]

/-- The spec-side probe result of an all-failure schedule of any length is
`none`: the loop is still running. -/
theorem specProbeResult_replicate (k : Nat) :
    specProbeResult (List.replicate k (true, ProbeOutcome.connectionError)) = none := by
  induction k with
  | zero => rfl
  | succ m ih => simp [List.replicate, specProbeResult, ih]

/-- C4 (confirmed): the backoff before retrying after the n-th failed
probe attempt is `min(RETRY_BACKOFF * n, 30)` with the attempt counter
starting at 1; it is monotonically non-decreasing in the attempt number
and never exceeds the cap 30; with base 5, attempts 1..4 sleep 5, 10, 15,
20 seconds and attempt 7 sleeps 30, not 35; accordingly seven straight
connection failures under the default configuration sleep
5, 10, 15, 20, 25, 30, 30. -/
theorem c4_backoff_formula (base a b : Nat) :
    (a ≤ b → backoff base a ≤ backoff base b) ∧
    backoff base a ≤ 30 ∧
    backoff 5 1 = 5 ∧ backoff 5 2 = 10 ∧ backoff 5 3 = 15 ∧ backoff 5 4 = 20 ∧
    backoff 5 7 = 30 ∧ backoff 5 7 ≠ 35 ∧
    wait_for_camunda defaultConfig 0 (List.replicate 7 (true, ProbeOutcome.connectionError)) =
      .ok (none, [5, 10, 15, 20, 25, 30, 30]) := by
  refine ⟨fun h => ?_, ?_, rfl, rfl, rfl, rfl, rfl, by decide, rfl⟩
  · exact min_le_min (Nat.mul_le_mul (Nat.le_refl base) h) (Nat.le_refl 30)
  · exact min_le_right _ _

/-- Witness for C4 at base 5, attempts 2 ≤ 3. -/
theorem c4_backoff_formula_witness :
    (backoff 5 2 ≤ backoff 5 3) ∧ backoff 5 2 ≤ 30 :=
  ⟨(c4_backoff_formula 5 2 3).1 (by decide), (c4_backoff_formula 5 2 3).2.1⟩

/-- C9 (confirmed): on the duplicate-check topic, when MOCK_IS_DUPLICATE
is true the handler returns isDuplicate=true together with a
matchedApplicationId whose value is a non-empty string; when the flag is
false it returns isDuplicate=false and no matchedApplicationId key at
all. -/
theorem c9_check_duplicate_result (cfg : Config) (task : Task) :
    (cfg.MOCK_IS_DUPLICATE = true →
      ∃ vars, handle_check_duplicate cfg task = .ok vars ∧
        vars.lookup ("isDuplicate") = some ⟨PyVal.pyBool true, ("Boolean")⟩ ∧
        ∃ s, vars.lookup ("matchedApplicationId") = some ⟨PyVal.pyStr s, ("String")⟩ ∧ s ≠ ("")) ∧
    (cfg.MOCK_IS_DUPLICATE = false →
      ∃ vars, handle_check_duplicate cfg task = .ok vars ∧
        vars.lookup ("isDuplicate") = some ⟨PyVal.pyBool false, ("Boolean")⟩ ∧
        vars.lookup ("matchedApplicationId") = none) := by
  constructor
  · intro h
    refine ⟨[(("isDuplicate"), ⟨PyVal.pyBool true, ("Boolean")⟩),
             (("matchedApplicationId"), ⟨PyVal.pyStr ("MOCK-DUP-12345"), ("String")⟩)],
            ?_, rfl, ("MOCK-DUP-12345"), rfl, by decide⟩
    simp [handle_check_duplicate, h]
  · intro h
    refine ⟨[(("isDuplicate"), ⟨PyVal.pyBool false, ("Boolean")⟩)], ?_, rfl, rfl⟩
    simp [handle_check_duplicate, h]

/-- Witness for C9: both flag settings at a concrete task. -/
theorem c9_check_duplicate_result_witness :
    (∃ vars, handle_check_duplicate dupConfig taskArchive = .ok vars ∧
      vars.lookup ("isDuplicate") = some ⟨PyVal.pyBool true, ("Boolean")⟩ ∧
      ∃ s, vars.lookup ("matchedApplicationId") = some ⟨PyVal.pyStr s, ("String")⟩ ∧ s ≠ ("")) ∧
    (∃ vars, handle_check_duplicate defaultConfig taskArchive = .ok vars ∧
      vars.lookup ("isDuplicate") = some ⟨PyVal.pyBool false, ("Boolean")⟩ ∧
      vars.lookup ("matchedApplicationId") = none) :=
  ⟨(c9_check_duplicate_result dupConfig taskArchive).1 rfl,
   (c9_check_duplicate_result defaultConfig taskArchive).2 rfl⟩

/-- C6 counterexample: the claim says every non-2xx response makes
_fetch_and_lock return an empty sequence, but raise_for_status only
raises for 4xx/5xx: a 300 response whose body parses as a one-task array
is returned as-is, a non-empty sequence. -/
theorem c6_counterexample :
    fetch_and_lock (FetchOutcome.response 300 (some [taskArchive])) = [taskArchive] ∧
    ¬ (200 ≤ 300 ∧ 300 ≤ 299) ∧
    ([taskArchive] : List Task) ≠ [] :=
  ⟨rfl, by decide, List.cons_ne_nil _ _⟩

/-- C6 (amended): a transport-level failure, a 4xx/5xx response, and an
unparseable body all make _fetch_and_lock log and return the empty task
list (the embedding is a total function: requests.RequestException
covers all those failures, so nothing propagates); a 1xx/3xx response
with a parseable body, however, is returned unchanged. -/
theorem c6_fetch_soft_failure_empty (status : Nat) (body : Option (List Task)) :
    fetch_and_lock FetchOutcome.transportError = [] ∧
    (400 ≤ status ∧ status < 600 → fetch_and_lock (FetchOutcome.response status body) = []) ∧
    (body = none → fetch_and_lock (FetchOutcome.response status body) = []) := by
  refine ⟨rfl, ?_, ?_⟩
  · intro h
    simp [fetch_and_lock, h]
  · intro h
    subst h
    by_cases hc : 400 ≤ status ∧ status < 600 <;> simp [fetch_and_lock, hc]

/-- Witness for C6 at a 404 response with a well-formed body. -/
theorem c6_fetch_soft_failure_empty_witness :
    fetch_and_lock (FetchOutcome.response 404 (some [taskArchive])) = [] :=
  (c6_fetch_soft_failure_empty 404 (some [taskArchive])).2.1 (by decide)

/-- C5 counterexample: a timed-out probe request is not treated as a soft
failure — a read timeout (requests.ReadTimeout is not a
requests.ConnectionError, the only class the probe's except clause
names) propagates out of the probe loop. -/
theorem c5_counterexample :
    wait_for_camunda defaultConfig 0
        [(true, ProbeOutcome.connectionError), (true, ProbeOutcome.readTimeout)] =
      .error PyErr.readTimeout := rfl

/-- C5 (amended): a connection failure (including a connect timeout) and
a non-200 response never raise — both fall through to the backoff sleep
and the retry, continuing the loop — but a read timeout raises an
exception the probe's except clause does not catch, which propagates out
of the probe loop. -/
theorem c5_soft_failures_do_not_raise (cfg : Config) (attempt : Nat)
    (rest : List (Bool × ProbeOutcome)) (o : ProbeOutcome) (s : Nat) :
    probeAttempt ProbeOutcome.connectionError = .ok false ∧
    (s ≠ 200 → probeAttempt (ProbeOutcome.response s) = .ok false) ∧
    (probeAttempt o = .ok false → ∀ result sleeps,
      wait_for_camunda cfg (attempt + 1) rest = .ok (result, sleeps) →
      wait_for_camunda cfg attempt ((true, o) :: rest) =
        .ok (result, backoff cfg.RETRY_BACKOFF (attempt + 1) :: sleeps)) := by
  refine ⟨rfl, ?_, ?_⟩
  · intro h
    simp [probeAttempt, h]
  · intro ho result sleeps hrest
    simp [wait_for_camunda, ho, hrest]

/-- Witness for C5: a connection error on attempt 1, then success. -/
theorem c5_soft_failures_do_not_raise_witness :
    probeAttempt (ProbeOutcome.response 404) = .ok false ∧
    wait_for_camunda defaultConfig 0
        [(true, ProbeOutcome.connectionError), (true, ProbeOutcome.response 200)] =
      .ok (some true, [backoff 5 1]) :=
  ⟨(c5_soft_failures_do_not_raise defaultConfig 0 [] ProbeOutcome.connectionError 404).2.1
      (by decide),
   (c5_soft_failures_do_not_raise defaultConfig 0 [(true, ProbeOutcome.response 200)]
      ProbeOutcome.connectionError 404).2.2 rfl (some true) [] rfl⟩

/-- C8 counterexample: a single read-timeout probe attempt terminates the
startup loop by an uncaught exception although no attempt returned
HTTP 200 and the Running Flag never became false — so the loop's
termination conditions are not exactly the two the claim states. -/
theorem c8_counterexample :
    wait_for_camunda defaultConfig 0 [(true, ProbeOutcome.readTimeout)] =
      .error PyErr.readTimeout ∧
    specProbeResult [(true, ProbeOutcome.readTimeout)] = none :=
  ⟨rfl, rfl⟩

/-- C8 (amended): on every schedule free of read-timeout outcomes, the
startup probe loop returns exactly what the spec describes — success
exactly when some attempt returns HTTP 200, failure exactly when the
Running Flag becomes false, in which case main exits with status 1 — it
has no maximum attempt count (any number of consecutive failures leaves
it running), and the configured MAX_RETRIES value has no effect on it. -/
theorem c8_probe_loop_refinement (cfg : Config) (inputs : List (Bool × ProbeOutcome)) (n : Nat)
    (hno : ∀ p ∈ inputs, p.2 ≠ ProbeOutcome.readTimeout) :
    (∃ sleeps, wait_for_camunda cfg 0 inputs = .ok (specProbeResult inputs, sleeps)) ∧
    wait_for_camunda { cfg with MAX_RETRIES := n } 0 inputs = wait_for_camunda cfg 0 inputs ∧
    (∀ k, ∃ sleeps,
      wait_for_camunda cfg 0 (List.replicate k (true, ProbeOutcome.connectionError)) =
        .ok (none, sleeps)) ∧
    (specProbeResult inputs = some false → startupExitCode false = some 1 ∧ (1 : Nat) ≠ 0) := by
  refine ⟨wait_refines_spec cfg inputs 0 hno, wait_ignores_max_retries cfg n inputs 0, ?_, ?_⟩
  · intro k
    have hk : ∀ p ∈ List.replicate k (true, ProbeOutcome.connectionError),
        p.2 ≠ ProbeOutcome.readTimeout := by
      intro p hp
      rw [List.eq_of_mem_replicate hp]
      decide
    obtain ⟨sleeps, hs⟩ := wait_refines_spec cfg (List.replicate k (true, ProbeOutcome.connectionError)) 0 hk
    exact ⟨sleeps, by rw [hs, specProbeResult_replicate]⟩
  · intro _
    exact ⟨rfl, by decide⟩

/-- Witness for C8: a failure then a success, with MAX_RETRIES 99. -/
theorem c8_probe_loop_refinement_witness :
    (∃ sleeps, wait_for_camunda defaultConfig 0
        [(true, ProbeOutcome.connectionError), (true, ProbeOutcome.response 200)] =
      .ok (specProbeResult
            [(true, ProbeOutcome.connectionError), (true, ProbeOutcome.response 200)], sleeps)) ∧
    wait_for_camunda { defaultConfig with MAX_RETRIES := 99 } 0
        [(true, ProbeOutcome.connectionError), (true, ProbeOutcome.response 200)] =
      wait_for_camunda defaultConfig 0
        [(true, ProbeOutcome.connectionError), (true, ProbeOutcome.response 200)] :=
  ⟨(c8_probe_loop_refinement defaultConfig
      [(true, ProbeOutcome.connectionError), (true, ProbeOutcome.response 200)] 99
      (by decide)).1,
   (c8_probe_loop_refinement defaultConfig
      [(true, ProbeOutcome.connectionError), (true, ProbeOutcome.response 200)] 99
      (by decide)).2.1⟩

/-- Dispatching a sendCogEmail task with MOCK_AUTO_COG_RESPONSE set:
handler, completion attempt, delay, follow-up message — unconditionally
on the outcome of the completion and message calls. -/
theorem dispatchTask_sendCogEmail (cfg : Config) (completeOk messageOk : String → Bool)
    (task : Task) (hflag : cfg.MOCK_AUTO_COG_RESPONSE = true)
    (htopic : task.topicName = ("sendCogEmail")) :
    dispatchTask cfg completeOk messageOk task =
      .ok [Event.completeCall task.id
             [(("cogEmailSent"), ⟨PyVal.pyBool true, ("Boolean")⟩)] (completeOk task.id),
           Event.sleepFor cfg.MOCK_COG_DELAY,
           Event.messageCall ("CogFormSubmitted") task.processInstanceId
             (messageOk task.processInstanceId)] := by
  obtain ⟨id, topic, pid, vars⟩ := task
  simp only at htopic
  subst htopic
  simp [dispatchTask, topicHandler, TOPIC_HANDLERS, List.lookup, handle_send_cog_email,
        complete_task, send_cog_form_message, hflag]

/-- C2 counterexample: a sendCogEmail task under the default
configuration whose completion POST fails (ok flag false in the trace):
the delayed CogFormSubmitted message is sent anyway, because
_complete_task swallows the failure and main fires the follow-up
unconditionally. -/
theorem c2_counterexample :
    dispatchTask defaultConfig (fun _ => false) (fun _ => true) taskCog =
      .ok [Event.completeCall ("t-cog")
             [(("cogEmailSent"), ⟨PyVal.pyBool true, ("Boolean")⟩)] false,
           Event.sleepFor 3,
           Event.messageCall ("CogFormSubmitted") ("p-cog") true] := rfl

/-- C2 (amended): for a fetched sendCogEmail task with
MOCK_AUTO_COG_RESPONSE enabled, the delayed sendMessage call is performed
after the completion attempt regardless of whether the completion call
succeeded — completion failures are logged and swallowed inside
_complete_task, so the dispatch path cannot observe them. -/
theorem c2_message_sent_regardless_of_completion (cfg : Config)
    (completeOk messageOk : String → Bool) (task : Task)
    (hflag : cfg.MOCK_AUTO_COG_RESPONSE = true)
    (htopic : task.topicName = ("sendCogEmail")) :
    dispatchTask cfg completeOk messageOk task =
      .ok [Event.completeCall task.id
             [(("cogEmailSent"), ⟨PyVal.pyBool true, ("Boolean")⟩)] (completeOk task.id),
           Event.sleepFor cfg.MOCK_COG_DELAY,
           Event.messageCall ("CogFormSubmitted") task.processInstanceId
             (messageOk task.processInstanceId)] :=
  dispatchTask_sendCogEmail cfg completeOk messageOk task hflag htopic

/-- Witness for C2: the amended claim at a concrete task whose completion
call fails. -/
theorem c2_message_sent_regardless_of_completion_witness :
    dispatchTask defaultConfig (fun _ => false) (fun _ => false) taskCog =
      .ok [Event.completeCall ("t-cog")
             [(("cogEmailSent"), ⟨PyVal.pyBool true, ("Boolean")⟩)] false,
           Event.sleepFor 3,
           Event.messageCall ("CogFormSubmitted") ("p-cog") false] :=
  c2_message_sent_regardless_of_completion defaultConfig (fun _ => false) (fun _ => false)
    taskCog rfl rfl

/-- C7 (confirmed): a fetch response containing one sendCogEmail task
with MOCK_AUTO_COG_RESPONSE enabled makes the poll iteration complete
that task, sleep the configured delay, and send the CogFormSubmitted
message with exactly that task's process instance id — and the iteration
finishes normally whatever the outcome of the message call (a send
failure is logged, not re-raised). -/
theorem c7_end_to_end_cog_message (cfg : Config) (completeOk messageOk : String → Bool)
    (task : Task) (hflag : cfg.MOCK_AUTO_COG_RESPONSE = true)
    (htopic : task.topicName = ("sendCogEmail")) :
    pollIteration cfg (FetchOutcome.response 200 (some [task])) completeOk messageOk =
      .ok [Event.completeCall task.id
             [(("cogEmailSent"), ⟨PyVal.pyBool true, ("Boolean")⟩)] (completeOk task.id),
           Event.sleepFor cfg.MOCK_COG_DELAY,
           Event.messageCall ("CogFormSubmitted") task.processInstanceId
             (messageOk task.processInstanceId),
           Event.sleepFor cfg.POLL_INTERVAL] := by
  have hfetch : fetch_and_lock (FetchOutcome.response 200 (some [task])) = [task] := rfl
  have hd := dispatchTask_sendCogEmail cfg completeOk messageOk task hflag htopic
  simp [pollIteration, hfetch, processBatch, hd]

/-- Witness for C7: one concrete sendCogEmail task whose message call
fails; the iteration still completes the task and ends normally. -/
theorem c7_end_to_end_cog_message_witness :
    pollIteration defaultConfig (FetchOutcome.response 200 (some [taskCog]))
        (fun _ => true) (fun _ => false) =
      .ok [Event.completeCall ("t-cog")
             [(("cogEmailSent"), ⟨PyVal.pyBool true, ("Boolean")⟩)] true,
           Event.sleepFor 3,
           Event.messageCall ("CogFormSubmitted") ("p-cog") false,
           Event.sleepFor 2] :=
  c7_end_to_end_cog_message defaultConfig (fun _ => true) (fun _ => false) taskCog rfl rfl

/-- C1 counterexample: a batch whose first task (sendNotification topic,
malformed notificationType variable) makes its handler raise
AttributeError: the second task has a known topic (archiveCase) yet gets
no completion call, and the exception propagates out of the poll
iteration instead of being logged and skipped. -/
theorem c1_counterexample :
    processBatch defaultConfig (fun _ => true) (fun _ => true)
        [taskBadNotification, taskArchive] = ([], some PyErr.attributeError) ∧
    pollIteration defaultConfig
        (FetchOutcome.response 200 (some [taskBadNotification, taskArchive]))
        (fun _ => true) (fun _ => true) = .error PyErr.attributeError ∧
    hasKnownTopic defaultConfig taskArchive = true :=
  ⟨rfl, rfl, rfl⟩

/-- C1 (amended): a handler exception is NOT caught at the dispatch
boundary: when the handler of a batch task raises, no completion call is
made for that task, the remaining tasks of the batch are not dispatched,
and the exception propagates out of the poll iteration, terminating the
poll loop (nothing in main catches it). -/
theorem c1_handler_exception_aborts_batch (cfg : Config)
    (completeOk messageOk : String → Bool) (task : Task) (rest : List Task)
    (h : Task → HandlerResult) (e : PyErr)
    (hlookup : topicHandler cfg task.topicName = some h)
    (herr : h task = .error e) :
    dispatchTask cfg completeOk messageOk task = .error e ∧
    processBatch cfg completeOk messageOk (task :: rest) = ([], some e) ∧
    (∀ fetch, fetch_and_lock fetch = task :: rest →
      pollIteration cfg fetch completeOk messageOk = .error e) := by
  have hd : dispatchTask cfg completeOk messageOk task = .error e := by
    simp [dispatchTask, hlookup, herr]
  have hp : processBatch cfg completeOk messageOk (task :: rest) = ([], some e) := by
    simp [processBatch, hd]
  refine ⟨hd, hp, ?_⟩
  intro fetch hf
  simp [pollIteration, hf, hp]

/-- Witness for C1: the amended claim at a concrete batch whose first
task (notifyDuplicate topic, malformed matchedApplicationId variable)
makes its handler raise AttributeError. -/
theorem c1_handler_exception_aborts_batch_witness :
    dispatchTask defaultConfig (fun _ => true) (fun _ => true) taskBadNotify =
      .error PyErr.attributeError ∧
    processBatch defaultConfig (fun _ => true) (fun _ => true) [taskBadNotify, taskArchive] =
      ([], some PyErr.attributeError) :=
  ⟨(c1_handler_exception_aborts_batch defaultConfig (fun _ => true) (fun _ => true)
      taskBadNotify [taskArchive] handle_notify_duplicate PyErr.attributeError rfl rfl).1,
   (c1_handler_exception_aborts_batch defaultConfig (fun _ => true) (fun _ => true)
      taskBadNotify [taskArchive] handle_notify_duplicate PyErr.attributeError rfl rfl).2.1⟩

/-- completedTaskIds distributes over event concatenation. -/
theorem completedTaskIds_append (a b : List Event) :
    completedTaskIds (a ++ b) = completedTaskIds a ++ completedTaskIds b := by
  simp [completedTaskIds, List.filterMap_append]

/-- A dispatch that returns normally attempts exactly one completion when
the topic is known, and none when it is unknown. -/
theorem completedTaskIds_dispatch (cfg : Config) (completeOk messageOk : String → Bool)
    (task : Task) (evs : List Event)
    (h : dispatchTask cfg completeOk messageOk task = .ok evs) :
    completedTaskIds evs = if hasKnownTopic cfg task then [task.id] else [] := by
  unfold dispatchTask at h
  split at h
  next handler hl =>
    split at h
    next e he => exact absurd h (by simp)
    next vars hv =>
      split at h
      next hcond =>
        obtain rfl := Except.ok.inj h
        simp [completedTaskIds, complete_task, send_cog_form_message,
              hasKnownTopic, hl]
      next hcond =>
        obtain rfl := Except.ok.inj h
        simp [completedTaskIds, complete_task, hasKnownTopic, hl]
  next hl =>
    obtain rfl := Except.ok.inj h
    simp [completedTaskIds, hasKnownTopic, hl]

/-- C3 counterexample: a batch consisting of one task whose topic IS in
the registered topic map (notifyDuplicate) but whose handler raises: no
completion call is attempted for it, refuting the "if" direction of the
claimed equivalence. -/
theorem c3_counterexample :
    hasKnownTopic defaultConfig taskBadNotify = true ∧
    processBatch defaultConfig (fun _ => true) (fun _ => true) [taskBadNotify] =
      ([], some PyErr.attributeError) ∧
    completedTaskIds [] = [] :=
  ⟨rfl, rfl, rfl⟩

/-- C3 (amended): the completion calls attempted during one batch pass
are always a sublist of the known-topic task ids, in batch order (in
particular, no completion for an unrecognized topic and no duplicate
completion); when every handler invocation of the batch returns normally
they are exactly the known-topic task ids, one completion per task — but
a handler exception cuts the pass short, leaving later known-topic tasks
without their completion call. -/
theorem c3_completed_ids_known_topics (cfg : Config)
    (completeOk messageOk : String → Bool) (tasks : List Task) :
    List.Sublist (completedTaskIds (processBatch cfg completeOk messageOk tasks).1)
      ((tasks.filter (hasKnownTopic cfg)).map Task.id) ∧
    ((processBatch cfg completeOk messageOk tasks).2 = none →
      completedTaskIds (processBatch cfg completeOk messageOk tasks).1 =
        (tasks.filter (hasKnownTopic cfg)).map Task.id) := by
  induction tasks with
  | nil => exact ⟨by simp [processBatch, completedTaskIds], fun _ => by
      simp [processBatch, completedTaskIds]⟩
  | cons t ts ih =>
    cases hd : dispatchTask cfg completeOk messageOk t with
    | error e =>
      have hp : processBatch cfg completeOk messageOk (t :: ts) = ([], some e) := by
        simp [processBatch, hd]
      constructor
      · rw [hp]
        exact List.nil_sublist _
      · intro hnone
        rw [hp] at hnone
        exact absurd hnone (by simp)
    | ok evs =>
      have hev := completedTaskIds_dispatch cfg completeOk messageOk t evs hd
      have hp : processBatch cfg completeOk messageOk (t :: ts) =
          (evs ++ (processBatch cfg completeOk messageOk ts).1,
           (processBatch cfg completeOk messageOk ts).2) := by
        simp [processBatch, hd]
      rw [hp]
      cases hk : hasKnownTopic cfg t with
      | true =>
        constructor
        · rw [completedTaskIds_append, hev, hk]
          simp only [List.filter_cons, hk, List.map_cons, if_true]
          exact List.Sublist.cons₂ t.id ih.1
        · intro hnone
          rw [completedTaskIds_append, hev, hk]
          simp only [List.filter_cons, hk, List.map_cons, if_true]
          rw [ih.2 hnone]
          rfl
      | false =>
        constructor
        · rw [completedTaskIds_append, hev, hk]
          simp only [List.filter_cons, hk, if_false]
          simpa using ih.1
        · intro hnone
          rw [completedTaskIds_append, hev, hk]
          simp only [List.filter_cons, hk, if_false]
          simpa using ih.2 hnone

/-- Witness for C3: a concrete batch mixing known and unknown topics with
no handler exception: the completion ids are exactly the known-topic
ids. -/
theorem c3_completed_ids_known_topics_witness :
    completedTaskIds (processBatch defaultConfig (fun _ => true) (fun _ => true)
        [taskArchive, taskUnknown, taskCog]).1 =
      (([taskArchive, taskUnknown, taskCog].filter
          (hasKnownTopic defaultConfig)).map Task.id) :=
  (c3_completed_ids_known_topics defaultConfig (fun _ => true) (fun _ => true)
    [taskArchive, taskUnknown, taskCog]).2 rfl

/-- Whatever handle_send_notification returns normally is the same
constant mapping. -/
theorem send_notification_ok (t : Task) (v : Variables)
    (h : handle_send_notification t = .ok v) :
    v = [(("notificationSent"), ⟨PyVal.pyBool true, ("Boolean")⟩)] := by
  unfold handle_send_notification at h
  split at h
  next => exact absurd h (by simp)
  next => simpa using h.symm

/-- Whatever handle_notify_duplicate returns normally is the same
constant mapping. -/
theorem notify_duplicate_ok (t : Task) (v : Variables)
    (h : handle_notify_duplicate t = .ok v) :
    v = [(("duplicateNotified"), ⟨PyVal.pyBool true, ("Boolean")⟩)] := by
  unfold handle_notify_duplicate at h
  split at h
  next => exact absurd h (by simp)
  next => simpa using h.symm

/-- handle_check_duplicate's result is determined by the flag alone. -/
theorem check_duplicate_ok (cfg : Config) (t : Task) (v : Variables)
    (h : handle_check_duplicate cfg t = .ok v) :
    v = if cfg.MOCK_IS_DUPLICATE
        then [(("isDuplicate"), ⟨PyVal.pyBool true, ("Boolean")⟩),
              (("matchedApplicationId"), ⟨PyVal.pyStr ("MOCK-DUP-12345"), ("String")⟩)]
        else [(("isDuplicate"), ⟨PyVal.pyBool false, ("Boolean")⟩)] := by
  cases hf : cfg.MOCK_IS_DUPLICATE <;>
    simp [handle_check_duplicate, hf] at h <;> simp [hf, h]

/-- C10 (confirmed): every registered handler's returned variables
mapping is the same for any two task payloads on which it returns
normally — the output is fully determined by the configuration flags —
and every returned variable carries one of the type tags Boolean, String
or Long. -/
theorem c10_handler_output_task_independent (cfg : Config) (topic : String)
    (h : Task → HandlerResult) (hl : topicHandler cfg topic = some h)
    (t1 t2 : Task) (v1 v2 : Variables)
    (h1 : h t1 = .ok v1) (h2 : h t2 = .ok v2) :
    v1 = v2 ∧
    ∀ p ∈ v1, p.2.type = ("Boolean") ∨ p.2.type = ("String") ∨ p.2.type = ("Long") := by
  simp only [topicHandler, TOPIC_HANDLERS, List.lookup_cons, List.lookup_nil] at hl
  split at hl
  · obtain rfl := Option.some.inj hl
    rw [send_notification_ok _ _ h1, send_notification_ok _ _ h2]
    exact ⟨rfl, by decide⟩
  · split at hl
    · obtain rfl := Option.some.inj hl
      rw [show v1 = _ from (by simpa [handle_resume_loan_processing] using h1.symm),
          show v2 = _ from (by simpa [handle_resume_loan_processing] using h2.symm)]
      exact ⟨rfl, by decide⟩
    · split at hl
      · obtain rfl := Option.some.inj hl
        rw [show v1 = _ from (by simpa [handle_route_to_next_stage] using h1.symm),
            show v2 = _ from (by simpa [handle_route_to_next_stage] using h2.symm)]
        exact ⟨rfl, by decide⟩
      · split at hl
        · obtain rfl := Option.some.inj hl
          rw [show v1 = _ from (by simpa [handle_archive_case] using h1.symm),
              show v2 = _ from (by simpa [handle_archive_case] using h2.symm)]
          exact ⟨rfl, by decide⟩
        · split at hl
          · obtain rfl := Option.some.inj hl
            rw [show v1 = _ from (by simpa [handle_assess_readability] using h1.symm),
                show v2 = _ from (by simpa [handle_assess_readability] using h2.symm)]
            exact ⟨rfl, by cases cfg.MOCK_IS_READABLE <;> decide⟩
          · split at hl
            · obtain rfl := Option.some.inj hl
              rw [check_duplicate_ok cfg _ _ h1, check_duplicate_ok cfg _ _ h2]
              exact ⟨rfl, by cases cfg.MOCK_IS_DUPLICATE <;> decide⟩
            · split at hl
              · obtain rfl := Option.some.inj hl
                rw [show v1 = _ from (by simpa [handle_send_cog_email] using h1.symm),
                    show v2 = _ from (by simpa [handle_send_cog_email] using h2.symm)]
                exact ⟨rfl, by decide⟩
              · split at hl
                · obtain rfl := Option.some.inj hl
                  rw [show v1 = _ from (by simpa [handle_extract_borrower_data] using h1.symm),
                      show v2 = _ from (by simpa [handle_extract_borrower_data] using h2.symm)]
                  exact ⟨rfl, by decide⟩
                · split at hl
                  · obtain rfl := Option.some.inj hl
                    rw [notify_duplicate_ok _ _ h1, notify_duplicate_ok _ _ h2]
                    exact ⟨rfl, by decide⟩
                  · exact absurd hl (by simp)

/-- Witness for C10: the archiveCase handler at two distinct concrete
tasks. -/
theorem c10_handler_output_task_independent_witness :
    ([(("archived"), (⟨PyVal.pyBool true, ("Boolean")⟩ : TypedVal))] =
      [(("archived"), (⟨PyVal.pyBool true, ("Boolean")⟩ : TypedVal))]) ∧
    ∀ p ∈ [(("archived"), (⟨PyVal.pyBool true, ("Boolean")⟩ : TypedVal))],
      p.2.type = ("Boolean") ∨ p.2.type = ("String") ∨ p.2.type = ("Long") :=
  c10_handler_output_task_independent defaultConfig ("archiveCase")
    handle_archive_case rfl taskArchive taskCog _ _ rfl rfl

end Worker
